import Mathlib

/-!
Shallow embedding of the stock-dashboard script `src/good.py` and
verification of its specification.

The script is a linear pipeline: collect inputs (symbols, date range,
theme toggle, refresh button) → fetch per-symbol OHLCV series
(`yf.download`, external) → build a tagged preview table, a CSV
download, four charts, and a latest-snapshot table.  We embed prices as
exact rationals, the fetched data as a function from symbol to its
chronologically ordered row list, and the whole run as a pure function
returning either the empty-selection warning, a fetch failure, an abort
(the `iloc[-1]` IndexError on an empty series), or the full rendered
output.
-/

namespace Good

/-- One calendar day's OHLCV data for one symbol: a row of
`all_data[sym]` with columns Open, High, Low, Close, Volume. -/
structure OHLCVRow where
  open_ : ℚ
  high : ℚ
  low : ℚ
  close : ℚ
  volume : ℚ
deriving DecidableEq, Repr

/-- A symbol's fetched series (`all_data[sym]`), rows in chronological
order. -/
abbrev Series := List OHLCVRow

/-- Round half to even, the tie-breaking rule of Python's built-in
`round`. -/
def roundHalfEven (q : ℚ) : ℤ :=
  if q - ⌊q⌋ < 1/2 then ⌊q⌋
  else if q - ⌊q⌋ > 1/2 then ⌊q⌋ + 1
  else if Even ⌊q⌋ then ⌊q⌋ else ⌊q⌋ + 1

/-- Python `round(x, 2)`: round to two decimal places, ties to even. -/
def round2 (q : ℚ) : ℚ := (roundHalfEven (q * 100) : ℚ) / 100

/-- Python `int(x)`: truncation toward zero. -/
def pyInt (q : ℚ) : ℤ := if 0 ≤ q then ⌊q⌋ else ⌈q⌉

/-- Helper for `pct_change`: given the previous element, map each
element `x` to `some (x / prev - 1)`. -/
def pctChangeAux (prev : ℚ) : List ℚ → List (Option ℚ)
  | [] => []
  | x :: xs => some (x / prev - 1) :: pctChangeAux x xs

/-- pandas `Series.pct_change()`: element-wise `current / previous - 1`
with an undefined (NaN, here `none`) value at the first position. -/
def pct_change : List ℚ → List (Option ℚ)
  | [] => []
  | x :: xs => none :: pctChangeAux x xs

/-- The percent-change series plotted by the script:
`all_data[sym]["Close"].pct_change() * 100`. -/
def pctSeries (closes : List ℚ) : List (Option ℚ) :=
  (pct_change closes).map (Option.map (· * 100))

/-- One plotly trace: the y series (values possibly undefined, as in the
percent-change chart's leading NaN) and the legend name. -/
structure Trace where
  y : List (Option ℚ)
  name : String
deriving DecidableEq, Repr

/-- A plotly figure: its list of traces. -/
structure Figure where
  traces : List Trace
deriving DecidableEq, Repr

/-- The legend of a figure: the trace names in order. -/
def legend (f : Figure) : List String := f.traces.map (·.name)

/-- The opening-price chart: one line per symbol, y = Open. -/
def fig_open (symbols : List String) (data : String → Series) : Figure :=
  ⟨symbols.map fun sym => ⟨(data sym).map fun r => some r.open_, sym⟩⟩

/-- The closing-price chart: one line+marker series per symbol,
y = Close. -/
def fig_close (symbols : List String) (data : String → Series) : Figure :=
  ⟨symbols.map fun sym => ⟨(data sym).map fun r => some r.close, sym⟩⟩

/-- The volume chart: one stacked series per symbol, y = Volume. -/
def fig_vol (symbols : List String) (data : String → Series) : Figure :=
  ⟨symbols.map fun sym => ⟨(data sym).map fun r => some r.volume, sym⟩⟩

/-- The percent-change chart: one line per symbol,
y = Close.pct_change() * 100. -/
def fig_pct (symbols : List String) (data : String → Series) : Figure :=
  ⟨symbols.map fun sym => ⟨pctSeries ((data sym).map (·.close)), sym⟩⟩

/-- The preview table
`pd.concat([all_data[sym].assign(Symbol=sym) for sym in symbols])`:
every symbol's full series, each row tagged with its symbol, symbols in
selection order, rows in chronological order within a symbol. -/
def preview_data (symbols : List String) (data : String → Series) :
    List (String × OHLCVRow) :=
  (symbols.map fun sym => (data sym).map fun r => (sym, r)).flatten

/-- The CSV download produced by `st.sidebar.download_button`:
`preview_data.to_csv(index=True).encode('utf-8')` with the file name and
MIME type passed in the call. -/
structure CsvDownload where
  table : List (String × OHLCVRow)
  includeIndex : Bool
  encoding : String
  fileName : String
  mime : String
deriving DecidableEq, Repr

/-- One row of the latest-snapshot table. -/
structure SnapshotRow where
  symbol : String
  latestPrice : ℚ
  openingPrice : ℚ
  high : ℚ
  low : ℚ
  volume : ℤ
deriving DecidableEq, Repr

/-- The body of the snapshot loop for one symbol: the fields appended to
`latest_data` from `latest_row = all_data[sym].iloc[-1]`. -/
def snapshotRow (sym : String) (latest_row : OHLCVRow) : SnapshotRow :=
  { symbol := sym
    latestPrice := round2 latest_row.close
    openingPrice := round2 latest_row.open_
    high := round2 latest_row.high
    low := round2 latest_row.low
    volume := pyInt latest_row.volume }

/-- The snapshot loop: for each symbol in order take
`latest_row = all_data[sym].iloc[-1]` — an IndexError, hence `none` for
the whole table, at the first symbol whose series is empty — and append
the rounded fields. -/
def latest_data (symbols : List String) (data : String → Series) :
    Option (List SnapshotRow) :=
  match symbols with
  | [] => some []
  | sym :: rest =>
    match (data sym).getLast? with
    | none => none
    | some latest_row =>
      match latest_data rest data with
      | none => none
      | some rows => some (snapshotRow sym latest_row :: rows)

/-- Everything the script renders on a fully successful run. -/
structure Output where
  preview_full : List (String × OHLCVRow)
  preview_shown : List (String × OHLCVRow)
  csv : CsvDownload
  figOpen : Figure
  figClose : Figure
  figVol : Figure
  figPct : Figure
  snapshot : List SnapshotRow
deriving DecidableEq, Repr

/-- Result of one execution of the script. -/
inductive RunResult where
  /-- Empty selection: only `st.warning(msg)` is rendered. -/
  | warning (msg : String) : RunResult
  /-- Fetch (`yf.download`) raised: the run halts before rendering. -/
  | fetchFailed : RunResult
  /-- Snapshot access `iloc[-1]` raised on an empty series: the run
  aborts. -/
  | aborted : RunResult
  /-- All stages completed. -/
  | success (out : Output) : RunResult
deriving DecidableEq, Repr

/-- One execution of the script: the `if symbols:` block of
`src/good.py`.  `fetch` is the outcome of `yf.download` for the chosen
symbols and date range (external, hence an input); `dark_mode` and
`refresh` are the sidebar toggle and button values, read but never used
by the data pipeline. -/
def run (symbols : List String) (fetch : Except String (String → Series))
    (dark_mode : Bool) (refresh : Bool) : RunResult :=
  if symbols.isEmpty then
    .warning ("Please select at least one stock symbol to view data.")
  else
    match fetch with
    | .error _ => .fetchFailed
    | .ok data =>
      let pv := preview_data symbols data
      match latest_data symbols data with
      | none => .aborted
      | some snap =>
        .success
          { preview_full := pv
            preview_shown := pv.take 20
            csv :=
              { table := pv
                includeIndex := true
                encoding := "utf-8"
                fileName := "stock_data.csv"
                mime := "text/csv" }
            figOpen := fig_open symbols data
            figClose := fig_close symbols data
            figVol := fig_vol symbols data
            figPct := fig_pct symbols data
            snapshot := snap }

/-! ### Helper lemmas -/

theorem pctChangeAux_length (p : ℚ) (ys : List ℚ) :
    (pctChangeAux p ys).length = ys.length := by
  induction ys generalizing p with
  | nil => rfl
  | cons y ys ih => simp [pctChangeAux, ih]

theorem pct_change_length (xs : List ℚ) :
    (pct_change xs).length = xs.length := by
  cases xs with
  | nil => rfl
  | cons x xs => simp [pct_change, pctChangeAux_length]

theorem pctSeries_length (closes : List ℚ) :
    (pctSeries closes).length = closes.length := by
  simp [pctSeries, pct_change_length]

theorem pctChangeAux_get :
    ∀ (ys : List ℚ) (p : ℚ) (t : ℕ) (h : t < ys.length),
      (pctChangeAux p ys).get ⟨t, by rw [pctChangeAux_length]; exact h⟩ =
        some (ys.get ⟨t, h⟩ /
          (p :: ys).get ⟨t, Nat.lt_succ_of_lt h⟩ - 1)
  | y :: ys, p, 0, _ => rfl
  | y :: ys, p, t + 1, h =>
    pctChangeAux_get ys y t (Nat.lt_of_succ_lt_succ h)

theorem pctChangeAux_defined (p : ℚ) (ys : List ℚ) :
    ((pctChangeAux p ys).filterMap id).length = ys.length := by
  induction ys generalizing p with
  | nil => rfl
  | cons y ys ih => simp [pctChangeAux, ih]

theorem latest_data_mem {symbols : List String} {data : String → Series}
    {snap : List SnapshotRow} (h : latest_data symbols data = some snap)
    {sym : String} (hs : sym ∈ symbols) {last : OHLCVRow}
    (hl : (data sym).getLast? = some last) :
    snapshotRow sym last ∈ snap := by
  induction symbols generalizing snap with
  | nil => cases hs
  | cons a rest ih =>
    rw [latest_data] at h
    cases hga : (data a).getLast? with
    | none => rw [hga] at h; cases h
    | some la =>
      rw [hga] at h
      cases hrest : latest_data rest data with
      | none => rw [hrest] at h; cases h
      | some rows =>
        rw [hrest] at h
        cases h
        rcases List.mem_cons.mp hs with rfl | hmem
        · rw [hga] at hl
          cases hl
          exact List.mem_cons_self _ _
        · exact List.mem_cons_of_mem _ (ih hrest hmem)

theorem latest_data_symbols {symbols : List String}
    {data : String → Series} {snap : List SnapshotRow}
    (h : latest_data symbols data = some snap) :
    snap.map (·.symbol) = symbols := by
  induction symbols generalizing snap with
  | nil => cases h; rfl
  | cons a rest ih =>
    rw [latest_data] at h
    cases hga : (data a).getLast? with
    | none => rw [hga] at h; cases h
    | some la =>
      rw [hga] at h
      cases hrest : latest_data rest data with
      | none => rw [hrest] at h; cases h
      | some rows =>
        rw [hrest] at h
        cases h
        simp [snapshotRow, ih hrest]

theorem latest_data_eq_none {symbols : List String}
    {data : String → Series} {sym : String} (hs : sym ∈ symbols)
    (he : data sym = []) : latest_data symbols data = none := by
  induction symbols with
  | nil => cases hs
  | cons a rest ih =>
    rw [latest_data]
    rcases List.mem_cons.mp hs with rfl | hmem
    · rw [he]; rfl
    · cases hga : (data a).getLast? with
      | none => rfl
      | some la => rw [ih hmem]

theorem pctSeries_get_succ (c : ℚ) (cs : List ℚ) (t : ℕ)
    (ht : t < cs.length) :
    (pctSeries (c :: cs)).get
        ⟨t + 1, by rw [pctSeries_length]; exact Nat.succ_lt_succ ht⟩ =
      some ((cs.get ⟨t, ht⟩ /
        (c :: cs).get ⟨t, Nat.lt_succ_of_lt ht⟩ - 1) * 100) := by
  have key := pctChangeAux_get cs c t ht
  simp only [List.get_eq_getElem] at key ⊢
  simp only [pctSeries, pct_change, List.map_cons, List.getElem_cons_succ,
    List.getElem_map]
  rw [key]
  rfl

theorem pctChangeAux_map_defined (g : ℚ → ℚ) :
    ∀ (p : ℚ) (ys : List ℚ),
      (((pctChangeAux p ys).map (Option.map g)).filterMap id).length =
        ys.length
  | _, [] => rfl
  | p, y :: ys => by
    have ih := pctChangeAux_map_defined g y ys
    simp only [List.filterMap_map, Function.id_comp] at ih
    simp [pctChangeAux, ih]

theorem legend_fig_open (symbols : List String) (data : String → Series) :
    legend (fig_open symbols data) = symbols := by
  simp [legend, fig_open, List.map_map, Function.comp_def]

theorem legend_fig_close (symbols : List String) (data : String → Series) :
    legend (fig_close symbols data) = symbols := by
  simp [legend, fig_close, List.map_map, Function.comp_def]

theorem legend_fig_vol (symbols : List String) (data : String → Series) :
    legend (fig_vol symbols data) = symbols := by
  simp [legend, fig_vol, List.map_map, Function.comp_def]

theorem legend_fig_pct (symbols : List String) (data : String → Series) :
    legend (fig_pct symbols data) = symbols := by
  simp [legend, fig_pct, List.map_map, Function.comp_def]

theorem preview_data_fst (symbols : List String) (data : String → Series) :
    (preview_data symbols data).map Prod.fst =
      (symbols.map fun sym =>
        List.replicate (data sym).length sym).flatten := by
  rw [preview_data, List.map_flatten, List.map_map]
  congr 1
  apply List.map_congr_left
  intro sym _
  simp [List.map_map, Function.comp_def]

theorem run_success {symbols : List String} {data : String → Series}
    {dm r : Bool} {out : Output}
    (h : run symbols (.ok data) dm r = .success out) :
    latest_data symbols data = some out.snapshot ∧
    out.preview_full = preview_data symbols data ∧
    out.preview_shown = out.preview_full.take 20 ∧
    out.csv = { table := out.preview_full, includeIndex := true,
                encoding := "utf-8", fileName := "stock_data.csv",
                mime := "text/csv" } ∧
    out.figOpen = fig_open symbols data ∧
    out.figClose = fig_close symbols data ∧
    out.figVol = fig_vol symbols data ∧
    out.figPct = fig_pct symbols data := by
  rw [run] at h
  by_cases hemp : symbols.isEmpty
  · rw [if_pos hemp] at h; cases h
  · rw [if_neg hemp] at h
    cases hld : latest_data symbols data with
    | none => simp only [hld] at h; cases h
    | some snap =>
      simp only [hld] at h
      cases h
      exact ⟨rfl, rfl, rfl, rfl, rfl, rfl, rfl, rfl⟩

/-! ### Concrete sample data shared by the witnesses -/

/-- First AAPL day: Open 100, High 103, Low 99, Close 100, Volume 1000. -/
def rowA1 : OHLCVRow := ⟨100, 103, 99, 100, 1000⟩

/-- Second AAPL day: Open 101, High 111, Low 100, Close 110, Volume 1200. -/
def rowA2 : OHLCVRow := ⟨101, 111, 100, 110, 1200⟩

/-- First MSFT day: Open 200, High 205, Low 195, Close 200, Volume 500. -/
def rowM1 : OHLCVRow := ⟨200, 205, 195, 200, 500⟩

/-- Second MSFT day: Open 203, High 212, Low 199, Close 210, Volume 600. -/
def rowM2 : OHLCVRow := ⟨203, 212, 199, 210, 600⟩

/-- A sample fetch result: two days each for AAPL and MSFT. -/
def sampleData : String → Series := fun s =>
  if s = "AAPL" then [rowA1, rowA2]
  else if s = "MSFT" then [rowM1, rowM2]
  else []

/-- The output the pipeline renders on `sampleData`. -/
def sampleOut : Output :=
  { preview_full := [("AAPL", rowA1), ("AAPL", rowA2),
                     ("MSFT", rowM1), ("MSFT", rowM2)]
    preview_shown := [("AAPL", rowA1), ("AAPL", rowA2),
                      ("MSFT", rowM1), ("MSFT", rowM2)]
    csv :=
      { table := [("AAPL", rowA1), ("AAPL", rowA2),
                  ("MSFT", rowM1), ("MSFT", rowM2)]
        includeIndex := true
        encoding := "utf-8"
        fileName := "stock_data.csv"
        mime := "text/csv" }
    figOpen := ⟨[⟨[some 100, some 101], "AAPL"⟩,
                 ⟨[some 200, some 203], "MSFT"⟩]⟩
    figClose := ⟨[⟨[some 100, some 110], "AAPL"⟩,
                  ⟨[some 200, some 210], "MSFT"⟩]⟩
    figVol := ⟨[⟨[some 1000, some 1200], "AAPL"⟩,
                ⟨[some 500, some 600], "MSFT"⟩]⟩
    figPct := ⟨[⟨[none, some 10], "AAPL"⟩,
                ⟨[none, some 5], "MSFT"⟩]⟩
    snapshot := [⟨"AAPL", 110, 101, 111, 100, 1200⟩,
                 ⟨"MSFT", 210, 203, 212, 199, 600⟩] }

/-- Evaluating the pipeline on the sample data yields `sampleOut`. -/
theorem sample_run :
    run ["AAPL", "MSFT"] (Except.ok sampleData) false false =
      RunResult.success sampleOut := by
  have hA : sampleData "AAPL" = [rowA1, rowA2] := by simp [sampleData]
  have hM : sampleData "MSFT" = [rowM1, rowM2] := by simp [sampleData]
  norm_num [run, hA, hM, sampleOut, preview_data, latest_data,
    snapshotRow, fig_open, fig_close, fig_vol, fig_pct, pctSeries,
    pct_change, pctChangeAux, round2, roundHalfEven, pyInt,
    rowA1, rowA2, rowM1, rowM2, List.getLast?, List.getLast, legend]

/-! ### The claims -/

/-- C1: for every selected symbol whose fetched series is non-empty, the
snapshot table of a completed run contains a row for that symbol whose
Latest Price is the close of the chronologically last fetched row rounded
to 2 decimals, whose Opening Price, High and Low are the corresponding
fields of that row rounded to 2 decimals, and whose Volume is that row's
volume as an integer. -/
theorem snapshot_latest_row (symbols : List String)
    (data : String → Series) (dm r : Bool) (out : Output)
    (h : run symbols (Except.ok data) dm r = RunResult.success out)
    (sym : String) (hs : sym ∈ symbols) (last : OHLCVRow)
    (hl : (data sym).getLast? = some last) :
    ({ symbol := sym
       latestPrice := round2 last.close
       openingPrice := round2 last.open_
       high := round2 last.high
       low := round2 last.low
       volume := pyInt last.volume } : SnapshotRow) ∈ out.snapshot :=
  latest_data_mem (run_success h).1 hs hl

/-- Witness for C1 at the sample data: AAPL's snapshot row is derived
from its last fetched row. -/
theorem snapshot_latest_row_witness :
    ({ symbol := "AAPL"
       latestPrice := round2 rowA2.close
       openingPrice := round2 rowA2.open_
       high := round2 rowA2.high
       low := round2 rowA2.low
       volume := pyInt rowA2.volume } : SnapshotRow) ∈ sampleOut.snapshot :=
  snapshot_latest_row ["AAPL", "MSFT"] sampleData false false sampleOut
    sample_run "AAPL" (by decide) rowA2 (by decide)

/-- C2: the percent-change series has value
`(close[t] - close[t-1]) / close[t-1] * 100` at every day after the
first, is undefined (`none`, not zero) on the first day, and has exactly
one fewer defined value than the close-price series. -/
theorem percent_change_series_spec (closes : List ℚ) (hne : closes ≠ [])
    (hnz : ∀ x ∈ closes, x ≠ 0) :
    (pctSeries closes).head? = some none ∧
    (∀ (t : ℕ) (h2 : t + 1 < closes.length),
      (pctSeries closes).get ⟨t + 1, by rw [pctSeries_length]; exact h2⟩ =
        some ((closes.get ⟨t + 1, h2⟩ -
            closes.get ⟨t, Nat.lt_of_succ_lt h2⟩) /
          closes.get ⟨t, Nat.lt_of_succ_lt h2⟩ * 100)) ∧
    ((pctSeries closes).filterMap id).length + 1 = closes.length := by
  obtain ⟨c, cs, rfl⟩ := List.exists_cons_of_ne_nil hne
  refine ⟨by simp [pctSeries, pct_change], ?_, ?_⟩
  · intro t h2
    have ht : t < cs.length := Nat.lt_of_succ_lt_succ h2
    have hp : (c :: cs).get ⟨t, Nat.lt_of_succ_lt h2⟩ ≠ 0 :=
      hnz _ (List.get_mem _ _ _)
    rw [pctSeries_get_succ c cs t ht]
    have hg : (c :: cs).get ⟨t + 1, h2⟩ = cs.get ⟨t, ht⟩ := rfl
    rw [hg, div_sub_one hp]
  · have hd := pctChangeAux_map_defined (· * 100) c cs
    simp only [pctSeries, pct_change, List.map_cons, Option.map_none',
      List.filterMap_cons_none, id, List.length_cons]
    rw [hd]

/-- Witness for C2 at closes 100, 110: the series is undefined then 10%. -/
theorem percent_change_series_spec_witness :
    (pctSeries [100, 110]).head? = some none ∧
    (∀ (t : ℕ) (h2 : t + 1 < ([100, 110] : List ℚ).length),
      (pctSeries [100, 110]).get
          ⟨t + 1, by rw [pctSeries_length]; exact h2⟩ =
        some ((([100, 110] : List ℚ).get ⟨t + 1, h2⟩ -
            ([100, 110] : List ℚ).get ⟨t, Nat.lt_of_succ_lt h2⟩) /
          ([100, 110] : List ℚ).get ⟨t, Nat.lt_of_succ_lt h2⟩ * 100)) ∧
    ((pctSeries [100, 110]).filterMap id).length + 1 =
      ([100, 110] : List ℚ).length :=
  percent_change_series_spec [100, 110] (by decide) (by decide)

/-- C3: the full preview table is the concatenation of every selected
symbol's full tagged series in selection order; the on-screen preview is
its first 20 rows; the CSV export carries the untruncated table. -/
theorem preview_table_spec (symbols : List String)
    (data : String → Series) (dm r : Bool) (out : Output)
    (h : run symbols (Except.ok data) dm r = RunResult.success out) :
    out.preview_full =
      (symbols.map fun sym => (data sym).map fun row => (sym, row)).flatten ∧
    out.preview_shown = out.preview_full.take 20 ∧
    out.csv.table = out.preview_full := by
  obtain ⟨-, h1, h2, h3, -⟩ := run_success h
  exact ⟨h1, h2, by rw [h3]⟩

/-- Witness for C3 at the sample data. -/
theorem preview_table_spec_witness :
    sampleOut.preview_full =
      ((["AAPL", "MSFT"] : List String).map fun sym =>
        (sampleData sym).map fun row => (sym, row)).flatten ∧
    sampleOut.preview_shown = sampleOut.preview_full.take 20 ∧
    sampleOut.csv.table = sampleOut.preview_full :=
  preview_table_spec ["AAPL", "MSFT"] sampleData false false sampleOut
    sample_run

/-- C4: in a completed run with distinct selected symbols, each chart's
legend and the snapshot's symbol column list the symbols exactly in
selection order, the preview table's tag column consists of one
contiguous block per symbol in selection order, and every selected
symbol appears exactly once in the legend and the snapshot column. -/
theorem symbol_order_invariant (symbols : List String)
    (data : String → Series) (dm r : Bool) (out : Output)
    (h : run symbols (Except.ok data) dm r = RunResult.success out)
    (hnd : symbols.Nodup) :
    legend out.figOpen = symbols ∧ legend out.figClose = symbols ∧
    legend out.figVol = symbols ∧ legend out.figPct = symbols ∧
    out.snapshot.map (·.symbol) = symbols ∧
    out.preview_full.map Prod.fst =
      (symbols.map fun sym =>
        List.replicate (data sym).length sym).flatten ∧
    ∀ sym ∈ symbols,
      (out.snapshot.map (·.symbol)).count sym = 1 ∧
      (legend out.figOpen).count sym = 1 := by
  obtain ⟨hsnap, h1, -, -, ho, hc, hv, hp⟩ := run_success h
  have hsym := latest_data_symbols hsnap
  refine ⟨?_, ?_, ?_, ?_, hsym, ?_, ?_⟩
  · rw [ho]; exact legend_fig_open symbols data
  · rw [hc]; exact legend_fig_close symbols data
  · rw [hv]; exact legend_fig_vol symbols data
  · rw [hp]; exact legend_fig_pct symbols data
  · rw [h1]; exact preview_data_fst symbols data
  · intro sym hs
    refine ⟨?_, ?_⟩
    · rw [hsym]; exact List.count_eq_one_of_mem hnd hs
    · rw [ho, legend_fig_open symbols data]
      exact List.count_eq_one_of_mem hnd hs

/-- Witness for C4 at the sample data. -/
theorem symbol_order_invariant_witness :
    legend sampleOut.figOpen = ["AAPL", "MSFT"] ∧
    legend sampleOut.figClose = ["AAPL", "MSFT"] ∧
    legend sampleOut.figVol = ["AAPL", "MSFT"] ∧
    legend sampleOut.figPct = ["AAPL", "MSFT"] ∧
    sampleOut.snapshot.map (·.symbol) = ["AAPL", "MSFT"] ∧
    sampleOut.preview_full.map Prod.fst =
      ((["AAPL", "MSFT"] : List String).map fun sym =>
        List.replicate (sampleData sym).length sym).flatten ∧
    ∀ sym ∈ (["AAPL", "MSFT"] : List String),
      (sampleOut.snapshot.map (·.symbol)).count sym = 1 ∧
      (legend sampleOut.figOpen).count sym = 1 :=
  symbol_order_invariant ["AAPL", "MSFT"] sampleData false false
    sampleOut sample_run (by decide)

/-- C5: with zero symbols selected the run renders only the warning
prompting the user to select a symbol — no charts, tables or download —
and the fetch result is never consulted: the outcome is the same
whatever the fetch would have returned. -/
theorem empty_selection_warning
    (fetch1 fetch2 : Except String (String → Series)) (dm r : Bool) :
    run [] fetch1 dm r =
      RunResult.warning
        ("Please select at least one stock symbol to view data.") ∧
    run [] fetch1 dm r = run [] fetch2 dm r :=
  ⟨rfl, rfl⟩

/-- C6: a selected symbol with an empty fetched series is fatal — the
run aborts at the snapshot stage and no success output exists. -/
theorem empty_series_aborts (symbols : List String)
    (data : String → Series) (dm r : Bool) (hne : symbols ≠ [])
    (sym : String) (hs : sym ∈ symbols) (hempty : data sym = []) :
    run symbols (Except.ok data) dm r = RunResult.aborted ∧
    ∀ out : Output,
      run symbols (Except.ok data) dm r ≠ RunResult.success out := by
  have hld := latest_data_eq_none hs hempty
  have hrun : run symbols (Except.ok data) dm r = RunResult.aborted := by
    rw [run, if_neg (by simp only [List.isEmpty_iff]; exact hne)]
    simp only [hld]
  exact ⟨hrun, fun out hcon => by rw [hrun] at hcon; cases hcon⟩

/-- Witness for C6: one selected symbol with zero fetched rows aborts. -/
theorem empty_series_aborts_witness :
    run ["AAPL"] (Except.ok fun _ => ([] : Series)) false false =
      RunResult.aborted ∧
    ∀ out : Output,
      run ["AAPL"] (Except.ok fun _ => ([] : Series)) false false ≠
        RunResult.success out :=
  empty_series_aborts ["AAPL"] (fun _ => []) false false (by decide)
    "AAPL" (by decide) rfl

/-- C7: the pipeline is a deterministic function of the selection and
the fetched data: identical symbols and identical fetch results give
identical run results, whatever the cosmetic toggles. -/
theorem pipeline_deterministic (s1 s2 : List String)
    (f1 f2 : Except String (String → Series)) (dm1 dm2 r1 r2 : Bool)
    (hs : s1 = s2) (hf : f1 = f2) :
    run s1 f1 dm1 r1 = run s2 f2 dm2 r2 := by
  subst hs; subst hf; rfl

/-- Witness for C7 at the sample data. -/
theorem pipeline_deterministic_witness :
    run ["AAPL", "MSFT"] (Except.ok sampleData) false false =
      run ["AAPL", "MSFT"] (Except.ok sampleData) true true :=
  pipeline_deterministic ["AAPL", "MSFT"] ["AAPL", "MSFT"]
    (Except.ok sampleData) (Except.ok sampleData) false true false true
    rfl rfl

/-- C8: the CSV download of a completed run is UTF-8 encoded, includes
the index column, is named stock_data.csv, has MIME type text/csv, and
carries the untruncated preview table. -/
theorem csv_download_spec (symbols : List String)
    (data : String → Series) (dm r : Bool) (out : Output)
    (h : run symbols (Except.ok data) dm r = RunResult.success out) :
    out.csv.encoding = "utf-8" ∧ out.csv.includeIndex = true ∧
    out.csv.fileName = "stock_data.csv" ∧ out.csv.mime = "text/csv" ∧
    out.csv.table = out.preview_full := by
  obtain ⟨-, -, -, h3, -⟩ := run_success h
  rw [h3]
  exact ⟨rfl, rfl, rfl, rfl, rfl⟩

/-- Witness for C8 at the sample data. -/
theorem csv_download_spec_witness :
    sampleOut.csv.encoding = "utf-8" ∧
    sampleOut.csv.includeIndex = true ∧
    sampleOut.csv.fileName = "stock_data.csv" ∧
    sampleOut.csv.mime = "text/csv" ∧
    sampleOut.csv.table = sampleOut.preview_full :=
  csv_download_spec ["AAPL", "MSFT"] sampleData false false sampleOut
    sample_run

/-- C9: the display-theme toggle is cosmetic: for any fixed selection
and fetch result, both toggle states produce the identical run result. -/
theorem theme_toggle_cosmetic (symbols : List String)
    (fetch : Except String (String → Series)) (r : Bool)
    (dm1 dm2 : Bool) :
    run symbols fetch dm1 r = run symbols fetch dm2 r := rfl

/-- C10: the refresh trigger's value never changes the result: for any
fixed selection and fetch result, pressed and unpressed states produce
the identical run result. -/
theorem refresh_no_effect (symbols : List String)
    (fetch : Except String (String → Series)) (dm : Bool)
    (r1 r2 : Bool) :
    run symbols fetch dm r1 = run symbols fetch dm r2 := rfl

end Good
